import Mathlib

/-!
Verification of the AI code-completion frontend (React + Monaco UI).

Shallow embedding of the orchestration layer of the repository:
 - `src/services/aiService.ts` — AI request construction, success-path
   post-processing, and error classification by substring matching;
 - `src/App.tsx` — editor change handling (the debounced suggestion
   fetcher), suggestion fetching, the AI-action UI state machine with its
   quota/configuration error flags, and text insertion back into the editor.

Strings are Lean `String`s; JS truthiness of a string is modelled as the
string being nonempty; optional JSON fields are `Option`; network outcomes
are passed in explicitly as oracle values since the backend is external.
-/

namespace AiCodeCompletion

/-- Model of JavaScript `s.includes(pat)` at the head position: `subAt pat l`
is true when `pat` matches a prefix of `l`. -/
def subAt : List Char → List Char → Bool
  | [], _ => true
  | _ :: _, [] => false
  | a :: as, b :: bs => a == b && subAt as bs

/-- Model of JavaScript `String.prototype.includes`: `hasSub pat l` is true
when `pat` occurs contiguously somewhere in `l` (case-sensitive). -/
def hasSub (pat : List Char) : List Char → Bool
  | [] => subAt pat []
  | b :: bs => subAt pat (b :: bs) || hasSub pat bs

/-- `strIncludes s pat` models the JavaScript expression `s.includes(pat)`. -/
def strIncludes (s pat : String) : Bool :=
  hasSub pat.toList s.toList

/-! ## `src/services/aiService.ts` — data model

The TypeScript interfaces `AICompletionRequest` and `AICompletionResponse`,
with optional fields as `Option`. -/

/-- The `request_type` union in `AICompletionRequest`:
`'completion' | 'documentation' | 'explanation'`. -/
inductive RequestType where
  | completion
  | documentation
  | explanation
deriving DecidableEq

/-- The `AICompletionRequest` interface of `aiService.ts`. Temperatures are
exact decimal literals in the source, modelled as rationals. -/
structure AICompletionRequest where
  prompt : String
  model : Option String := none
  system_prompt : Option String := none
  temperature : Option ℚ := none
  max_tokens : Option Nat := none
  language : Option String := none
  request_type : Option RequestType := none
deriving DecidableEq

/-- The `AICompletionResponse` interface of `aiService.ts`; `provider` is
optional. -/
structure AICompletionResponse where
  response : String
  model : String
  timestamp : String
  provider : Option String := none
deriving DecidableEq

/-! ## `AIService.getCompletion` — error classification

On failure, `getCompletion` inspects `error.response.data.error` (modelled
as `bodyError : Option String`, `none` when the response, its data, or the
`error` field is absent).  It throws `AI API Key Error: <msg>` on the
quota/billing/API-key substrings, a fixed `AI Configuration Error: ...`
message on `proxies`, the body message verbatim otherwise when nonempty
(JS truthiness), and rethrows the original transport error (whose message
is `transportMsg`) when the body message is empty or absent. -/

/-- The `ErrorClassification` variants of the specification data model. -/
inductive ErrorClassification where
  | QuotaOrKeyError
  | ConfigurationError
  | GenericError (message : String)
deriving DecidableEq

/-- The message of the error thrown (or rethrown) by
`AIService.getCompletion` on failure, from `aiService.ts` lines 40–69. -/
def getCompletionThrownMessage (bodyError : Option String)
    (transportMsg : String) : String :=
  match bodyError with
  | some e =>
    if e ≠ "" ∧ (strIncludes e "quota" = true ∨ strIncludes e "billing" = true ∨
        strIncludes e "API key" = true) then
      "AI API Key Error: " ++ e
    else if e ≠ "" ∧ strIncludes e "proxies" = true then
      "AI Configuration Error: Server proxy settings issue. Please contact administrator."
    else if e ≠ "" then
      e
    else
      transportMsg
  | none => transportMsg

/-- The error classification performed by `AIService.getCompletion`: which
of the three throw sites fires (quota/key, configuration, or the generic
fallback carrying a message). The final fallback rethrows the original
transport error, whose own message is what propagates. -/
def classifyAIError (bodyError : Option String)
    (transportMsg : String) : ErrorClassification :=
  match bodyError with
  | some e =>
    if e ≠ "" ∧ (strIncludes e "quota" = true ∨ strIncludes e "billing" = true ∨
        strIncludes e "API key" = true) then
      .QuotaOrKeyError
    else if e ≠ "" ∧ strIncludes e "proxies" = true then
      .ConfigurationError
    else if e ≠ "" then
      .GenericError e
    else
      .GenericError transportMsg
  | none => .GenericError transportMsg

/-! ## `AIService` entry points — request construction and success path -/

/-- The request built by `AIService.getCodeCompletion` (template literal of
lines 79–81 reproduced with its exact whitespace). -/
def getCodeCompletionRequest (code language : String) : AICompletionRequest :=
  { prompt := code
    system_prompt := some ("You are an expert " ++ language ++ " programmer. \n    Provide code completion that is concise, efficient, and follows best practices.\n    Only return code without explanation.")
    temperature := some (0.3 : ℚ)
    language := some language
    request_type := some .completion }

/-- The request built by `AIService.generateDocumentation` (lines 108–119). -/
def generateDocumentationRequest (code language : String) : AICompletionRequest :=
  { prompt := "Generate documentation for the following " ++ language ++ " code:\n\n" ++ code
    system_prompt := some ("You are an expert at writing documentation. \n    Analyze the provided " ++ language ++ " code and generate clear, comprehensive documentation\n    that explains what the code does, any parameters, return values, and important details.")
    temperature := some (0.5 : ℚ)
    language := some language
    request_type := some .documentation }

/-- The request built by `AIService.explainCode` (lines 137–148). -/
def explainCodeRequest (code language : String) : AICompletionRequest :=
  { prompt := "Explain this " ++ language ++ " code in simple terms:\n\n" ++ code
    system_prompt := some ("You are a programming teacher who explains code in simple terms.\n    Analyze the provided " ++ language ++ " code and explain what it does in clear, concise language\n    that a junior developer would understand. Focus on the purpose and logic, not line-by-line details.")
    temperature := some (0.7 : ℚ)
    language := some language
    request_type := some .explanation }

/-- Success path of `AIService.getCodeCompletion` (lines 92–94):
`providerInfo` is `' (via <p>)'` when `response.provider` is truthy, else
`''`; the returned text is `response.response` plus `'\n\n' + providerInfo`
when `providerInfo` is truthy. -/
def getCodeCompletionText (r : AICompletionResponse) : String :=
  let providerInfo : String :=
    match r.provider with
    | some p => if p = "" then "" else " (via " ++ p ++ ")"
    | none => ""
  r.response ++ (if providerInfo = "" then "" else "\n\n" ++ providerInfo)

/-- Success path of `AIService.generateDocumentation` (lines 121–123),
textually identical to the completion one in the source. -/
def generateDocumentationText (r : AICompletionResponse) : String :=
  let providerInfo : String :=
    match r.provider with
    | some p => if p = "" then "" else " (via " ++ p ++ ")"
    | none => ""
  r.response ++ (if providerInfo = "" then "" else "\n\n" ++ providerInfo)

/-- Success path of `AIService.explainCode` (lines 150–152), textually
identical to the completion one in the source. -/
def explainCodeText (r : AICompletionResponse) : String :=
  let providerInfo : String :=
    match r.provider with
    | some p => if p = "" then "" else " (via " ++ p ++ ")"
    | none => ""
  r.response ++ (if providerInfo = "" then "" else "\n\n" ++ providerInfo)

/-! ## `src/App.tsx` — axios defaults (lines 60–63) -/

/-- `axios.defaults.timeout = 10000` — the fixed request timeout in
milliseconds applied to every outbound HTTP call. -/
def axiosTimeoutMs : Nat := 10000

/-- `axios.defaults.headers.common` assignments of `App.tsx` lines 62–63. -/
def axiosDefaultHeaders : List (String × String) :=
  [("Content-Type", "application/json"), ("Accept", "application/json")]

/-! ## `src/App.tsx` — `handleEditorChange` (lines 102–111)

The handler receives the editor value (`string | undefined`, modelled as
`Option String`; JS truthiness makes `undefined` and `""` both falsy).  On
a truthy value it sets the mirrored `code` state and schedules a
`setTimeout` of 500 ms that will call `getSuggestions(value)`, then
returns a cleanup closure `() => clearTimeout(timeoutId)`.  The handler is
installed as Monaco's `onChange` callback, which ignores its return value,
so the cleanup closure is discarded and no timer is ever cancelled. -/

/-- State of the editor-change scheduler: the mirrored `code` state and the
pending `setTimeout` timers, each as (absolute fire time in ms, the code
value captured by the closure). -/
structure SchedulerState where
  code : String
  pending : List (Nat × String)
deriving DecidableEq

/-- `handleEditorChange` at wall-clock time `now`.  Returns the new state
together with the cleanup handle (the index of the scheduled timer) when a
timer was scheduled — the handle a caller would need to cancel it. -/
def handleEditorChange (now : Nat) (value : Option String)
    (st : SchedulerState) : SchedulerState × Option Nat :=
  match value with
  | some v =>
    if v = "" then (st, none)
    else ({ code := v, pending := st.pending ++ [(now + 500, v)] },
          some st.pending.length)
  | none => (st, none)

/-- Model of `clearTimeout` on a scheduled-timer handle: removes that timer
from the pending list.  Present in the source only inside the cleanup
closure returned by `handleEditorChange`; no caller ever invokes it. -/
def clearTimeoutAt (st : SchedulerState) (i : Nat) : SchedulerState :=
  { st with pending := st.pending.eraseIdx i }

/-- Monaco's `onChange` wiring (`App.tsx` line 386): it calls
`handleEditorChange` and discards the returned cleanup closure. -/
def onChange (now : Nat) (value : Option String)
    (st : SchedulerState) : SchedulerState :=
  (handleEditorChange now value st).1

/-- A sequence of editor edits, each (time, value), processed through the
`onChange` wiring. -/
def processEdits (edits : List (Nat × Option String))
    (st : SchedulerState) : SchedulerState :=
  edits.foldl (fun s e => onChange e.1 e.2 s) st

/-! ## `src/App.tsx` — UI state and the suggestion fetcher -/

/-- A quick suggestion item: `{ completion, confidence }`. -/
structure Suggestion where
  completion : String
  confidence : ℚ
deriving DecidableEq

/-- The `aiAction` union `'complete' | 'document' | 'explain' | 'remove'`
(the Clean button sets `'remove'`). -/
inductive ActionKind where
  | complete
  | document
  | explain
  | remove
deriving DecidableEq

/-- The React state of the `App` component (`App.tsx` lines 86–95),
restricted to the fields the orchestration logic reads and writes. -/
structure AppState where
  code : String
  language : String
  suggestions : List Suggestion
  error : Option String
  loading : Bool
  aiResponse : Option String
  aiLoading : Bool
  aiAction : Option ActionKind
  isQuotaError : Bool
  isConfigError : Bool
deriving DecidableEq

/-- The initial React state (`useState` initialisers). -/
def initialState : AppState :=
  { code := "# Start typing your code here..."
    language := "python"
    suggestions := []
    error := none
    loading := false
    aiResponse := none
    aiLoading := false
    aiAction := none
    isQuotaError := false
    isConfigError := false }

/-- The `disabled` prop shared by the four AI action buttons
(`App.tsx` lines 417, 428, 439, 450):
`aiLoading || !code || isQuotaError || isConfigError`. -/
def actionDisabled (st : AppState) : Bool :=
  st.aiLoading || st.code == "" || st.isQuotaError || st.isConfigError

/-- Outcome of the `/api/complete` suggestion request, supplied by the
external backend: a 2xx response whose body may or may not carry a
`suggestions` field, or one of the axios failure categories distinguished
in the `catch` block of `getSuggestions`. -/
inductive FetchOutcome where
  | success (suggestions : Option (List Suggestion))
  | connRefused
  | serverError (bodyError : Option String) (statusText : String)
  | noResponse
  | unknownError
deriving DecidableEq

/-- The initial error message of the `catch` block of `getSuggestions`,
also the final one for non-axios errors (including the
`Invalid response format from server` error thrown on a missing
`suggestions` field) and for axios errors in none of the three listed
categories. -/
def defaultSuggestionError : String :=
  "Failed to fetch code suggestions. Please try again."

/-- The error message chosen by the `catch` block of `getSuggestions`
(`App.tsx` lines 131–140) for each failure category.  For a server error
the body's `error` field is carried verbatim when truthy, else the
response's `statusText` (`error.response.data.error || error.response.statusText`). -/
def suggestionErrorMessage : FetchOutcome → String
  | .success _ => defaultSuggestionError
  | .connRefused => "Cannot connect to the backend server. Please make sure it is running."
  | .serverError bodyError statusText =>
    "Server error: " ++
      (match bodyError with
       | some e => if e = "" then statusText else e
       | none => statusText)
  | .noResponse => "No response from server. Please check your connection."
  | .unknownError => defaultSuggestionError

/-- `getSuggestions` (`App.tsx` lines 113–146) as a state transformer, with
the network outcome passed in.  It sets `loading` and clears `error` up
front; a 2xx body with a `suggestions` field replaces the list wholesale;
a 2xx body without one throws `Invalid response format from server`, which
lands in the same `catch` as the transport failures; the `catch` sets the
category's error message and clears the list; `finally` clears `loading`. -/
def getSuggestions (r : FetchOutcome) (st : AppState) : AppState :=
  match r with
  | .success (some l) =>
    { st with suggestions := l, error := none, loading := false }
  | r' =>
    { st with suggestions := [], error := some (suggestionErrorMessage r'),
              loading := false }

/-! ## `src/App.tsx` — AI action handlers and error flags -/

/-- Resolution of one AI action's `AIService` call, supplied by the
external backend: the post-processed response text on success, or the
message of the thrown error on failure. -/
inductive AIOutcome where
  | success (text : String)
  | failure (message : String)
deriving DecidableEq

/-- The quota banner message set by every AI action handler
(`App.tsx` lines 182, 210, 238, 314). -/
def quotaBannerMessage : String :=
  "AI API quota exceeded or billing issue. The API key needs to be updated or billing issues need to be resolved."

/-- The configuration banner message set by every AI action handler
(`App.tsx` lines 185, 213, 241, 317). -/
def configBannerMessage : String :=
  "AI configuration error on the server. The administrator needs to fix proxy settings."

/-- The per-handler generic failure text template (`App.tsx` lines 188,
216, 244, 320; the Clean handler routes through `handleAIError`). -/
def actionFailureText : ActionKind → String
  | .complete => "Failed to get code completion from AI: "
  | .document => "Failed to generate documentation with AI: "
  | .explain => "Failed to explain code with AI: "
  | .remove => "Failed to process with AI: "

/-- The shared `catch`-block logic of the four AI action handlers: match
the thrown error's message (truthy, i.e. nonempty, and containing
`AI API Key Error` / `Configuration Error`) and set the corresponding
banner and flag, else the generic per-action message with
`error.message || 'Please try again later.'`. -/
def applyAIError (k : ActionKind) (msg : String) (st : AppState) : AppState :=
  if msg ≠ "" ∧ strIncludes msg "AI API Key Error" = true then
    { st with error := some quotaBannerMessage, isQuotaError := true }
  else if msg ≠ "" ∧ strIncludes msg "Configuration Error" = true then
    { st with error := some configBannerMessage, isConfigError := true }
  else
    { st with error := some (actionFailureText k ++
        (if msg = "" then "Please try again later." else msg)) }

/-- One complete run of an AI action handler (`handleCompleteCode`,
`handleDocumentCode`, `handleExplainCode`, `handleCleanCode`): set
`aiLoading`, record the action kind, clear the previous response, error
and both error flags, await the single `AIService` call, then either store
the response or classify the failure; `finally` clears `aiLoading`. -/
def runAIAction (k : ActionKind) (o : AIOutcome) (st : AppState) : AppState :=
  let started : AppState :=
    { st with aiAction := some k, aiResponse := none, error := none,
              isQuotaError := false, isConfigError := false,
              aiLoading := false }
  match o with
  | .success text => { started with aiResponse := some text }
  | .failure msg => applyAIError k msg started

/-- The UI events of the `App` component that touch the modelled state.
Click events are only delivered when the button is enabled (a click on a
disabled button is a DOM no-op), which `step` models with the
`actionDisabled` guard. -/
inductive Event where
  | clickAction (k : ActionKind) (o : AIOutcome)
  | suggestionResult (r : FetchOutcome)
  | editorChanged (value : Option String)
  | closeSnackbar
deriving DecidableEq

/-- One step of the `App` UI: the next state together with the number of
AI-action HTTP requests issued by the event (each enabled click performs
exactly one `AIService.getCompletion` POST; nothing retries). -/
def step : Event → AppState → AppState × Nat
  | .clickAction k o, st =>
    if actionDisabled st = true then (st, 0)
    else (runAIAction k o st, 1)
  | .suggestionResult r, st => (getSuggestions r st, 0)
  | .editorChanged v, st =>
    (match v with
     | some s => if s = "" then st else { st with code := s }
     | none => st, 0)
  | .closeSnackbar, st => ({ st with error := none }, 0)

/-! ## `src/App.tsx` — `handleInsertAtCursor` (lines 251–285)

The Monaco model (the editor buffer) and the mirrored `code` state.  A
Monaco selection is modelled as a pair of character offsets into the
buffer; `pushEditOperations` on a range replaces exactly that range. -/

/-- The editor buffer together with the mirrored React `code` state. -/
structure EditorView where
  buffer : String
  code : String
deriving DecidableEq

/-- Replacement of the character range `[s, e)` of `buffer` by `text` —
the effect of `pushEditOperations` with that range. -/
def replaceRange (buffer : String) (s e : Nat) (text : String) : String :=
  String.mk (buffer.toList.take s ++ text.toList ++ buffer.toList.drop e)

/-- `handleInsertAtCursor`: `if (!aiResponse) return;` makes the handler a
no-op when the AI response is absent or the empty string (both JS-falsy);
otherwise, with a selection, replace the selection range in the buffer;
without one, replace the full model range; in both branches set the
mirrored `code` state to the AI response (`setCode(aiResponse)`,
line 283). -/
def handleInsertAtCursor (aiResponse : Option String)
    (selection : Option (Nat × Nat)) (st : EditorView) : EditorView :=
  match aiResponse with
  | none => st
  | some resp =>
    if resp = "" then st
    else
      match selection with
      | some se => { buffer := replaceRange st.buffer se.1 se.2 resp, code := resp }
      | none => { buffer := resp, code := resp }

/-! ## Helper lemmas on `strIncludes` -/

theorem subAt_refl_append (p t : List Char) : subAt p (p ++ t) = true := by
  induction p with
  | nil => rfl
  | cons a as ih => simp [subAt, ih]

theorem hasSub_of_subAt (p l : List Char) (h : subAt p l = true) :
    hasSub p l = true := by
  cases l with
  | nil => simpa [hasSub] using h
  | cons b bs => simp [hasSub, h]

theorem hasSub_append (x p t : List Char) : hasSub p (x ++ p ++ t) = true := by
  induction x with
  | nil => simpa using hasSub_of_subAt p (p ++ t) (subAt_refl_append p t)
  | cons b bs ih =>
    rw [List.append_assoc] at ih
    simp only [List.cons_append, List.append_assoc]
    simp [hasSub, ih]

/-- A string built around `b` contains `b` as a substring. -/
theorem strIncludes_append (a b c : String) :
    strIncludes (a ++ b ++ c) b = true := by
  have h : (a ++ b ++ c).toList = a.toList ++ b.toList ++ c.toList := by
    simp [String.toList, String.data_append]
  simpa [strIncludes, h] using hasSub_append a.toList b.toList c.toList

theorem toList_ne_nil (pat : String) (hp : pat ≠ "") : pat.toList ≠ [] := by
  intro hnil
  apply hp
  cases pat with
  | mk data =>
    have hd : data = [] := hnil
    rw [hd]

theorem strIncludes_empty_right (pat : String) (hp : pat ≠ "") :
    strIncludes "" pat = false := by
  rw [strIncludes]
  cases hq : pat.toList with
  | nil => exact absurd hq (toList_ne_nil pat hp)
  | cons a as => rfl

/-- If a nonempty pattern occurs in `s`, then `s` is nonempty. -/
theorem ne_empty_of_strIncludes (s pat : String) (hp : pat ≠ "")
    (h : strIncludes s pat = true) : s ≠ "" := by
  intro hs
  subst hs
  rw [strIncludes_empty_right pat hp] at h
  exact Bool.false_ne_true h

/-! ## Claim theorems -/

/-- C5: For every successful AI action (completion, documentation,
explanation), if the response declares a (nonempty) provider name the
returned text is the response text with the human-readable suffix
`"\n\n (via <provider>)"` appended; if no provider is declared, the
returned text equals the response text exactly, with no suffix. -/
theorem provider_suffix_exact (r : AICompletionResponse) :
    (r.provider = none →
      getCodeCompletionText r = r.response ∧
      generateDocumentationText r = r.response ∧
      explainCodeText r = r.response) ∧
    (∀ p, r.provider = some p → p ≠ "" →
      getCodeCompletionText r = r.response ++ "\n\n (via " ++ p ++ ")" ∧
      generateDocumentationText r = r.response ++ "\n\n (via " ++ p ++ ")" ∧
      explainCodeText r = r.response ++ "\n\n (via " ++ p ++ ")") := by
  constructor
  · intro h
    simp [getCodeCompletionText, generateDocumentationText, explainCodeText, h]
  · intro p hp hpe
    have hvia : " (via " ++ p ++ ")" ≠ "" := by
      intro hcontra
      have : (" (via " ++ p ++ ")").toList = [] := by rw [hcontra]; rfl
      simp [String.toList, String.data_append] at this
    simp only [getCodeCompletionText, generateDocumentationText,
      explainCodeText, hp]
    rw [if_neg hpe, if_neg hvia]
    refine ⟨?_, ?_, ?_⟩ <;> simp [String.ext_iff, String.data_append]

/-- C5 witness: concrete instantiations of both branches. -/
theorem provider_suffix_exact_witness :
    ((⟨"txt", "m", "t", none⟩ : AICompletionResponse).provider = none ∧
      getCodeCompletionText ⟨"txt", "m", "t", none⟩ = "txt") ∧
    ((⟨"txt", "m", "t", some "gemini"⟩ : AICompletionResponse).provider
        = some "gemini" ∧ ("gemini" : String) ≠ "" ∧
      getCodeCompletionText ⟨"txt", "m", "t", some "gemini"⟩
        = "txt" ++ "\n\n (via " ++ "gemini" ++ ")") :=
  ⟨⟨rfl, ((provider_suffix_exact ⟨"txt", "m", "t", none⟩).1 rfl).1⟩,
   ⟨rfl, by decide,
    ((provider_suffix_exact ⟨"txt", "m", "t", some "gemini"⟩).2 "gemini" rfl
      (by decide)).1⟩⟩

/-- C7: Each of the three AI action entry points builds its request with
the kind-specific temperature and request kind — completion 0.3,
documentation 0.5, explanation 0.7 — and with a system prompt that is the
kind's fixed template with the active language name interpolated (so the
system prompt contains the language name). -/
theorem ai_request_parameters (code language : String) :
    ((getCodeCompletionRequest code language).temperature = some (0.3 : ℚ) ∧
     (getCodeCompletionRequest code language).request_type
        = some RequestType.completion ∧
     (getCodeCompletionRequest code language).system_prompt
        = some ("You are an expert " ++ language ++ " programmer. \n    Provide code completion that is concise, efficient, and follows best practices.\n    Only return code without explanation.") ∧
     (∀ sp, (getCodeCompletionRequest code language).system_prompt = some sp →
        strIncludes sp language = true)) ∧
    ((generateDocumentationRequest code language).temperature = some (0.5 : ℚ) ∧
     (generateDocumentationRequest code language).request_type
        = some RequestType.documentation ∧
     (generateDocumentationRequest code language).system_prompt
        = some ("You are an expert at writing documentation. \n    Analyze the provided " ++ language ++ " code and generate clear, comprehensive documentation\n    that explains what the code does, any parameters, return values, and important details.") ∧
     (∀ sp, (generateDocumentationRequest code language).system_prompt = some sp →
        strIncludes sp language = true)) ∧
    ((explainCodeRequest code language).temperature = some (0.7 : ℚ) ∧
     (explainCodeRequest code language).request_type
        = some RequestType.explanation ∧
     (explainCodeRequest code language).system_prompt
        = some ("You are a programming teacher who explains code in simple terms.\n    Analyze the provided " ++ language ++ " code and explain what it does in clear, concise language\n    that a junior developer would understand. Focus on the purpose and logic, not line-by-line details.") ∧
     (∀ sp, (explainCodeRequest code language).system_prompt = some sp →
        strIncludes sp language = true)) := by
  refine ⟨⟨rfl, rfl, rfl, ?_⟩, ⟨rfl, rfl, rfl, ?_⟩, ⟨rfl, rfl, rfl, ?_⟩⟩
  · intro sp hsp
    simp only [getCodeCompletionRequest, Option.some.injEq] at hsp
    rw [← hsp]
    exact strIncludes_append _ language _
  · intro sp hsp
    simp only [generateDocumentationRequest, Option.some.injEq] at hsp
    rw [← hsp]
    exact strIncludes_append _ language _
  · intro sp hsp
    simp only [explainCodeRequest, Option.some.injEq] at hsp
    rw [← hsp]
    exact strIncludes_append _ language _

/-- C7 witness: request parameters evaluated at a concrete input,
discharging the inner system-prompt hypothesis. -/
theorem ai_request_parameters_witness :
    (getCodeCompletionRequest "x" "python").temperature = some (0.3 : ℚ) ∧
    strIncludes ("You are an expert " ++ "python" ++ " programmer. \n    Provide code completion that is concise, efficient, and follows best practices.\n    Only return code without explanation.") "python" = true :=
  ⟨(ai_request_parameters "x" "python").1.1,
   (ai_request_parameters "x" "python").1.2.2.2
     ("You are an expert " ++ "python" ++ " programmer. \n    Provide code completion that is concise, efficient, and follows best practices.\n    Only return code without explanation.") rfl⟩

/-- C2 counterexample: the claim says every error body outside the
quota/proxy sets is classified `GenericError` carrying the original body
message verbatim; but a body whose `error` field is the empty string
(which contains none of the substrings) makes `getCompletion` rethrow the
original transport error, so the classification carries the transport
error's message, not the body's empty message. -/
theorem classify_empty_body_not_verbatim :
    classifyAIError (some "") "Request failed with status code 500"
        = ErrorClassification.GenericError "Request failed with status code 500" ∧
    classifyAIError (some "") "Request failed with status code 500"
        ≠ ErrorClassification.GenericError "" := by
  constructor
  · rfl
  · decide

/-- C2 (amended): the classification in `AIService.getCompletion` is the
piecewise function of the claim on bodies whose message is nonempty —
quota/billing/API-key substrings (case-sensitive) give `QuotaOrKeyError`;
`proxies` outside the quota set gives `ConfigurationError`; any other
nonempty message is `GenericError` with that message verbatim — while an
empty or absent body message rethrows the original transport error, whose
message is what the generic classification then carries. -/
theorem classifyAIError_spec (e tm : String) :
    (strIncludes e "quota" = true ∨ strIncludes e "billing" = true ∨
        strIncludes e "API key" = true →
      classifyAIError (some e) tm = ErrorClassification.QuotaOrKeyError) ∧
    (strIncludes e "quota" = false → strIncludes e "billing" = false →
        strIncludes e "API key" = false → strIncludes e "proxies" = true →
      classifyAIError (some e) tm = ErrorClassification.ConfigurationError) ∧
    (e ≠ "" → strIncludes e "quota" = false → strIncludes e "billing" = false →
        strIncludes e "API key" = false → strIncludes e "proxies" = false →
      classifyAIError (some e) tm = ErrorClassification.GenericError e) ∧
    classifyAIError (some "") tm = ErrorClassification.GenericError tm ∧
    classifyAIError none tm = ErrorClassification.GenericError tm := by
  refine ⟨?_, ?_, ?_, rfl, rfl⟩
  · intro h
    have hne : e ≠ "" := by
      rcases h with h | h | h
      · exact ne_empty_of_strIncludes e "quota" (by decide) h
      · exact ne_empty_of_strIncludes e "billing" (by decide) h
      · exact ne_empty_of_strIncludes e "API key" (by decide) h
    rw [classifyAIError, if_pos ⟨hne, h⟩]
  · intro hq hb hk hp
    have hne : e ≠ "" := ne_empty_of_strIncludes e "proxies" (by decide) hp
    rw [classifyAIError, if_neg, if_pos ⟨hne, hp⟩]
    rintro ⟨-, h | h | h⟩
    · rw [hq] at h; exact Bool.false_ne_true h
    · rw [hb] at h; exact Bool.false_ne_true h
    · rw [hk] at h; exact Bool.false_ne_true h
  · intro hne hq hb hk hp
    rw [classifyAIError, if_neg, if_neg, if_pos hne]
    · rintro ⟨-, h⟩
      rw [hp] at h
      exact Bool.false_ne_true h
    · rintro ⟨-, h | h | h⟩
      · rw [hq] at h; exact Bool.false_ne_true h
      · rw [hb] at h; exact Bool.false_ne_true h
      · rw [hk] at h; exact Bool.false_ne_true h

/-- C2 witness: each branch of the classification evaluated at a concrete
error body, discharging its hypotheses. -/
theorem classifyAIError_spec_witness :
    (strIncludes "You exceeded your current quota, check billing" "quota" = true ∧
      classifyAIError (some "You exceeded your current quota, check billing") "t"
        = ErrorClassification.QuotaOrKeyError) ∧
    (strIncludes "proxies argument not supported" "proxies" = true ∧
      classifyAIError (some "proxies argument not supported") "t"
        = ErrorClassification.ConfigurationError) ∧
    (("model overloaded" : String) ≠ "" ∧
      classifyAIError (some "model overloaded") "t"
        = ErrorClassification.GenericError "model overloaded") :=
  ⟨⟨by decide,
    (classifyAIError_spec "You exceeded your current quota, check billing" "t").1
      (Or.inl (by decide))⟩,
   ⟨by decide,
    (classifyAIError_spec "proxies argument not supported" "t").2.1
      (by decide) (by decide) (by decide) (by decide)⟩,
   ⟨by decide,
    (classifyAIError_spec "model overloaded" "t").2.2.1
      (by decide) (by decide) (by decide) (by decide) (by decide)⟩⟩

/-- C1: the claim states that a burst of edits within 500 ms issues exactly
one suggestion request, carrying the last edit's value.  The code schedules
one 500 ms timer per nonempty edit and returns a cleanup closure that
Monaco's `onChange` discards, so no timer is ever cancelled: a burst of two
edits 100 ms apart leaves two pending timers — two requests, the first
carrying the superseded value — contradicting the claim (and the source's
own `Debounce the API call to avoid too many requests` comment). -/
theorem debounce_burst_two_requests :
    (processEdits [(0, some "a"), (100, some "ab")]
        { code := "# Start typing your code here...", pending := [] }).pending
      = [(500, "a"), (600, "ab")] ∧
    ((processEdits [(0, some "a"), (100, some "ab")]
        { code := "# Start typing your code here...", pending := [] }).pending).length
      ≠ 1 := by
  constructor
  · rfl
  · decide

/-- C9: the editor change callback with `undefined` or the empty string is
a complete no-op — the mirrored code state is unchanged and no suggestion
fetch is scheduled (and no cleanup handle is returned); a nonempty value
updates the code state and schedules exactly one fetch of that value 500 ms
later. -/
theorem editor_change_empty_is_noop (now : Nat) (st : SchedulerState) :
    handleEditorChange now none st = (st, none) ∧
    handleEditorChange now (some "") st = (st, none) ∧
    ∀ v, v ≠ "" →
      handleEditorChange now (some v) st =
        ({ code := v, pending := st.pending ++ [(now + 500, v)] },
         some st.pending.length) := by
  refine ⟨rfl, rfl, ?_⟩
  intro v hv
  rw [handleEditorChange, if_neg hv]

/-- C9 witness: the no-op and update branches at concrete inputs. -/
theorem editor_change_empty_is_noop_witness :
    handleEditorChange 7 none { code := "x", pending := [] } =
      ({ code := "x", pending := [] }, none) ∧
    (("ab" : String) ≠ "" ∧
      handleEditorChange 7 (some "ab") { code := "x", pending := [] } =
        ({ code := "ab", pending := [(507, "ab")] }, some 0)) :=
  ⟨(editor_change_empty_is_noop 7 { code := "x", pending := [] }).1,
   by decide,
   (editor_change_empty_is_noop 7 { code := "x", pending := [] }).2.2 "ab"
     (by decide)⟩

/-- C3: whenever the quota/key-error flag or the configuration-error flag
is set, all four AI action triggers are disabled — a click on any of them
leaves the state unchanged and issues no request — and no event of the UI
clears either flag or issues an AI request (there is no clear affordance
and no automatic retry), so the triggers stay disabled. -/
theorem error_flags_block_actions (st : AppState)
    (h : st.isQuotaError = true ∨ st.isConfigError = true) :
    (∀ k o, step (Event.clickAction k o) st = (st, 0)) ∧
    (∀ e, (step e st).1.isQuotaError = st.isQuotaError ∧
          (step e st).1.isConfigError = st.isConfigError ∧
          (step e st).2 = 0) := by
  have hd : actionDisabled st = true := by
    rcases h with h | h <;> simp [actionDisabled, h]
  constructor
  · intro k o
    simp [step, hd]
  · intro e
    cases e with
    | clickAction k o => simp [step, hd]
    | suggestionResult r =>
      cases r with
      | success o => cases o <;> exact ⟨rfl, rfl, rfl⟩
      | connRefused => exact ⟨rfl, rfl, rfl⟩
      | serverError b s => exact ⟨rfl, rfl, rfl⟩
      | noResponse => exact ⟨rfl, rfl, rfl⟩
      | unknownError => exact ⟨rfl, rfl, rfl⟩
    | editorChanged v =>
      cases v with
      | none => exact ⟨rfl, rfl, rfl⟩
      | some s =>
        by_cases hs : s = "" <;> simp [step, hs]
    | closeSnackbar => exact ⟨rfl, rfl, rfl⟩

/-- C3 witness: with the quota flag set, a click on Complete is a no-op. -/
theorem error_flags_block_actions_witness :
    ({ initialState with isQuotaError := true } : AppState).isQuotaError = true ∧
    step (Event.clickAction ActionKind.complete (AIOutcome.success "y"))
        { initialState with isQuotaError := true } =
      ({ initialState with isQuotaError := true }, 0) :=
  ⟨rfl, (error_flags_block_actions { initialState with isQuotaError := true }
    (Or.inl rfl)).1 ActionKind.complete (AIOutcome.success "y")⟩

/-- C4 counterexample: inserting the AI response `XY` with selection
`[1, 3)` over the buffer `abcdef` leaves the buffer as `aXYdef` but sets
the mirrored code state to `XY` — the two are not mutated consistently,
contradicting the claim's last clause. -/
theorem insert_at_cursor_mirror_diverges :
    (handleInsertAtCursor (some "XY") (some (1, 3))
        ⟨"abcdef", "abcdef"⟩).buffer = "aXYdef" ∧
    (handleInsertAtCursor (some "XY") (some (1, 3))
        ⟨"abcdef", "abcdef"⟩).code = "XY" ∧
    (handleInsertAtCursor (some "XY") (some (1, 3))
        ⟨"abcdef", "abcdef"⟩).buffer ≠
      (handleInsertAtCursor (some "XY") (some (1, 3))
        ⟨"abcdef", "abcdef"⟩).code := by
  refine ⟨?_, ?_, ?_⟩ <;> decide

/-- C4 (amended): for a nonempty AI response, with an active selection
only the selection text in the editor buffer is replaced by the response,
and with no selection the entire buffer is replaced; but in both branches
the mirrored code state is set to the AI response alone, so editor buffer
and code state agree only when there is no selection (or the selection
spans the whole buffer).  Without an AI response — absent or empty, both
JS-falsy — the invocation is a no-op. -/
theorem insert_at_cursor_spec (resp : String) (st : EditorView)
    (hr : resp ≠ "") :
    (∀ s e, handleInsertAtCursor (some resp) (some (s, e)) st =
      { buffer := String.mk (st.buffer.toList.take s ++ resp.toList ++
          st.buffer.toList.drop e),
        code := resp }) ∧
    handleInsertAtCursor (some resp) none st =
      { buffer := resp, code := resp } ∧
    (∀ sel, handleInsertAtCursor none sel st = st) ∧
    (∀ sel, handleInsertAtCursor (some "") sel st = st) := by
  refine ⟨?_, ?_, fun _ => rfl, fun _ => rfl⟩
  · intro s e
    simp [handleInsertAtCursor, replaceRange, hr]
  · simp [handleInsertAtCursor, hr]

/-- C4 witness: the amended behavior at a concrete nonempty response. -/
theorem insert_at_cursor_spec_witness :
    ("XY" : String) ≠ "" ∧
    handleInsertAtCursor (some "XY") none ⟨"abcdef", "abcdef"⟩ =
      ⟨"XY", "XY"⟩ ∧
    handleInsertAtCursor (some "") (some (1, 3)) ⟨"abcdef", "abcdef"⟩ =
      ⟨"abcdef", "abcdef"⟩ :=
  ⟨by decide,
   (insert_at_cursor_spec "XY" ⟨"abcdef", "abcdef"⟩ (by decide)).2.1,
   (insert_at_cursor_spec "XY" ⟨"abcdef", "abcdef"⟩ (by decide)).2.2.2
     (some (1, 3))⟩

/-- C6: every failed suggestion fetch — whatever the failure category,
including a 2xx body without a `suggestions` field — empties the
suggestion list and surfaces that category's generic error message, and
never touches the blocking quota or configuration error flags. -/
theorem suggestion_failure_degrades (st : AppState) (r : FetchOutcome)
    (h : ∀ l, r ≠ FetchOutcome.success (some l)) :
    (getSuggestions r st).suggestions = [] ∧
    (getSuggestions r st).error = some (suggestionErrorMessage r) ∧
    (getSuggestions r st).isQuotaError = st.isQuotaError ∧
    (getSuggestions r st).isConfigError = st.isConfigError := by
  cases r with
  | success o =>
    cases o with
    | some l => exact absurd rfl (h l)
    | none => exact ⟨rfl, rfl, rfl, rfl⟩
  | connRefused => exact ⟨rfl, rfl, rfl, rfl⟩
  | serverError b s => exact ⟨rfl, rfl, rfl, rfl⟩
  | noResponse => exact ⟨rfl, rfl, rfl, rfl⟩
  | unknownError => exact ⟨rfl, rfl, rfl, rfl⟩

/-- C6 witness: a connection-refused fetch empties the list and sets the
generic message, with the error flags untouched. -/
theorem suggestion_failure_degrades_witness :
    (getSuggestions FetchOutcome.connRefused initialState).suggestions = [] ∧
    (getSuggestions FetchOutcome.connRefused initialState).error
      = some (suggestionErrorMessage FetchOutcome.connRefused) ∧
    (getSuggestions FetchOutcome.connRefused initialState).isQuotaError = false :=
  ⟨(suggestion_failure_degrades initialState FetchOutcome.connRefused
      (fun _ h => FetchOutcome.noConfusion h)).1,
   (suggestion_failure_degrades initialState FetchOutcome.connRefused
      (fun _ h => FetchOutcome.noConfusion h)).2.1,
   (suggestion_failure_degrades initialState FetchOutcome.connRefused
      (fun _ h => FetchOutcome.noConfusion h)).2.2.1⟩

/-- C8: the axios defaults fix a 10-second timeout and the JSON
Content-Type and Accept headers for every outbound request, and an enabled
click on an AI action issues exactly one HTTP request — also when the
outcome is a failure, so nothing retries. -/
theorem one_request_per_trigger (st : AppState) (k : ActionKind) (o : AIOutcome)
    (h : actionDisabled st = false) :
    axiosTimeoutMs = 10000 ∧
    axiosDefaultHeaders =
      [("Content-Type", "application/json"), ("Accept", "application/json")] ∧
    (step (Event.clickAction k o) st).2 = 1 := by
  refine ⟨rfl, rfl, ?_⟩
  simp [step, h]

/-- C8 witness: a failing Complete click from the initial state issues
exactly one request. -/
theorem one_request_per_trigger_witness :
    actionDisabled initialState = false ∧
    (step (Event.clickAction ActionKind.complete (AIOutcome.failure "boom"))
        initialState).2 = 1 :=
  ⟨by decide,
   (one_request_per_trigger initialState ActionKind.complete
      (AIOutcome.failure "boom") (by decide)).2.2⟩

/-- C10: a 2xx suggestion response whose body lacks a `suggestions` field
is treated as a failure: the list is cleared (so the rendered list is the
well-defined empty array) and the generic error message is set. -/
theorem missing_suggestions_field_fails (st : AppState) :
    (getSuggestions (FetchOutcome.success none) st).suggestions = [] ∧
    (getSuggestions (FetchOutcome.success none) st).error
      = some defaultSuggestionError :=
  ⟨rfl, rfl⟩

end AiCodeCompletion
